import Mathlib

/-!
Verification development for the `Fiarzen/audio-analysis` repository.

The repository is a small audio-analysis system: an Express web app
(`audio-analysis-webapp/server.js` plus browser scripts) that accepts audio
uploads, stores them in a Cloud Storage bucket and serves analysis results
from a Firestore collection; Terraform (`terraform/main.tf`) that wires a
storage-finalized event trigger to a Cloud Function running the analysis
pipeline; and the pipeline itself (a Python/librosa function whose contract
is given by the specification).

This file shallowly embeds the parts of that code the verified claims are
about: the upload filter and constants of `server.js`, the document-id
derivation, the results-page rendering logic, the `/api/results` handler,
the Terraform event-trigger configuration, and a spec-faithful model of the
analysis pipeline (whose Python source ships separately from this
repository snapshot). Theorems about these definitions follow at the end.
-/

namespace AudioAnalysis

/-! ## Embedding of `audio-analysis-webapp/server.js` configuration -/

/-- `server.js` line 14: the allowed upload extensions. -/
def ALLOWED_EXTENSIONS : List String := [".mp3", ".wav", ".flac", ".m4a", ".aac"]

/-- `server.js` line 15: `const MAX_FILE_SIZE = 50 * 1024 * 1024`. -/
def MAX_FILE_SIZE : Nat := 50 * 1024 * 1024

/-! ## Node `path.extname`

`server.js` computes `path.extname(file.originalname)`. We embed Node's
documented behaviour: take the basename (portion after the last `/`,
ignoring trailing slashes), and return the substring from the last `.`
onwards, unless there is no `.`, the only `.` is the first character of the
basename, or the basename is exactly `..` — in those cases the extension is
empty. -/

/-- Drop trailing `/` characters, as Node's path parsing does. -/
def dropTrailingSlashes (l : List Char) : List Char :=
  (l.reverse.dropWhile (fun c => c = '/')).reverse

/-- The basename: characters after the last `/` (trailing slashes ignored). -/
def basenameChars (l : List Char) : List Char :=
  ((dropTrailingSlashes l).reverse.takeWhile (fun c => c ≠ '/')).reverse

/-- The extension of a basename: from the last `.` onwards when that `.`
sits at index ≥ 1 and the basename is not `..`; empty otherwise. -/
def extChars (b : List Char) : List Char :=
  if b = ['.', '.'] then []
  else
    let t := b.reverse.takeWhile (fun c => c ≠ '.')
    if t.length + 2 ≤ b.length then '.' :: t.reverse else []

/-- Node's `path.extname`. -/
def extname (s : String) : String := ⟨extChars (basenameChars s.data)⟩

/-- JavaScript `toLowerCase()` restricted to ASCII letters, as a
structural map over the characters (the allowed extensions are pure
ASCII, so this agrees with the JavaScript call on every relevant
input). -/
def toLowerAscii (s : String) : String := ⟨s.data.map Char.toLower⟩

/-! ## The multer `fileFilter` of `server.js` lines 37–44 -/

/-- `fileFilter`: accept when the lower-cased extension is allowed, else
fail with the exact error message of `server.js` line 42. -/
def fileFilter (originalname : String) : Except String Unit :=
  let ext := toLowerAscii (extname originalname)
  if ext ∈ ALLOWED_EXTENSIONS then
    Except.ok ()
  else
    Except.error "File type not allowed. Use MP3, WAV, FLAC, M4A, or AAC"

/-- Multer size-limit check (`limits: { fileSize: MAX_FILE_SIZE }`):
a file is accepted when its byte size does not exceed the limit. -/
def multerAccepts (sizeBytes : Nat) : Bool := decide (sizeBytes ≤ MAX_FILE_SIZE)

/-! ## Document id derivation, `server.js` line 89 -/

/-- JavaScript `s.replace(/c₁/g, c₂)` for a single-character pattern. -/
def replaceChar (c₁ c₂ : Char) (s : String) : String :=
  ⟨s.data.map (fun c => if c = c₁ then c₂ else c)⟩

/-- `filename.replace(/\//g, "_").replace(/\./g, "_")` from `server.js`. -/
def docId (filename : String) : String :=
  replaceChar '.' '_' (replaceChar '/' '_' filename)

/-- The claimed derivation: every `/` and every `.` replaced by `_` in one
pass over the filename. -/
def docIdSpec (filename : String) : String :=
  ⟨filename.data.map (fun c => if c = '/' ∨ c = '.' then '_' else c)⟩

/-! ## Result records and the results page (`public/js/results` script) -/

/-- A stored analysis record as the web layer sees it: only the fields the
claims are about (`error` and `processed_at` are absent when the Firestore
document lacks them). -/
structure StoredResult where
  file_name : String
  error : Option String
  processed_at : Option String
deriving DecidableEq, Repr

/-- The two card shapes `renderResults` can emit: `createErrorCard`
carries the failure message, `createResultCard` does not. -/
inductive Card where
  | errorCard (file_name : String) (message : String) : Card
  | resultCard (file_name : String) : Card
deriving DecidableEq, Repr

/-- JavaScript truthiness of `result.error`: an absent field and the empty
string are falsy; any non-empty string is truthy. -/
def jsTruthy : Option String → Bool
  | none => false
  | some s => !(s == "")

/-- One record's card, as `renderResults` chooses it:
`if (result.error) return createErrorCard(result); return createResultCard(result)`. -/
def renderCard (r : StoredResult) : Card :=
  if jsTruthy r.error then Card.errorCard r.file_name (r.error.getD "")
  else Card.resultCard r.file_name

/-- `renderResults`: map every record to its card, in order. -/
def renderResults (rs : List StoredResult) : List Card := rs.map renderCard

/-- Rendering rule with presence read as non-emptiness: a record whose
`error` is a non-empty string becomes an error card showing that message;
a record with `error` absent or empty becomes a result card. -/
def renderCardSpec (r : StoredResult) : Card :=
  match r.error with
  | some s => if s = "" then Card.resultCard r.file_name else Card.errorCard r.file_name s
  | none => Card.resultCard r.file_name

/-! ## The `/api/results` handler, `server.js` lines 106–147 -/

/-- Sort key of the comparator at `server.js` lines 134–138:
`a.processed_at || ""`. -/
def sortKey (r : StoredResult) : String := r.processed_at.getD ""

/-- The comparator `(a, b) => dateB.localeCompare(dateA)` read as an order
relation: `a` may precede `b` when `b`'s key is ≤ `a`'s key
(most recent first). -/
def newestFirst (a b : StoredResult) : Prop := sortKey b ≤ sortKey a

instance : DecidableRel newestFirst :=
  fun a b => inferInstanceAs (Decidable (sortKey b ≤ sortKey a))

instance : IsTotal StoredResult newestFirst :=
  ⟨fun a b => le_total (sortKey b) (sortKey a)⟩

instance : IsTrans StoredResult newestFirst :=
  ⟨fun _ _ _ hab hbc => le_trans hbc hab⟩

/-- `results.sort(comparator)`: a comparator-consistent stable sort. -/
def sortResults (rs : List StoredResult) : List StoredResult :=
  rs.insertionSort newestFirst

/-- The `/api/results` handler after the Firestore fetch: on success,
respond 200 with the sorted records; on a fetch failure, the `catch` block
responds `res.json([])` — status 200 with an empty list. -/
def getResultsResponse (fetched : Except String (List StoredResult)) :
    Nat × List StoredResult :=
  match fetched with
  | Except.ok docs => (200, sortResults docs)
  | Except.error _ => (200, [])

/-! ## Terraform event trigger, `terraform/main.tf` lines 179–189 -/

/-- The fields of a `google_cloudfunctions2_function` `event_trigger`
block that the claims are about. -/
structure EventTrigger where
  trigger_region : String
  event_type : String
  retry_policy : String
  filter_bucket : String
deriving DecidableEq, Repr

/-- The `event_trigger` block of the `process-audio` function, with the
variable defaults of `terraform/variables.tf` substituted. -/
def processAudioTrigger : EventTrigger :=
  { trigger_region := "eu"
    event_type := "google.cloud.storage.object.v1.finalized"
    retry_policy := "RETRY_POLICY_DO_NOT_RETRY"
    filter_bucket := "audio-files-dynamic-hub-471412-r1" }

/-- Eventarc retry semantics for Cloud Functions triggers: under
`RETRY_POLICY_DO_NOT_RETRY` an event is delivered at most once to the
function, i.e. a failed invocation is not attempted again; under
`RETRY_POLICY_RETRY` redelivery is unbounded (`none`). -/
def maxAttempts (policy : String) : Option Nat :=
  if policy = "RETRY_POLICY_DO_NOT_RETRY" then some 1 else none

/-! ## The analysis pipeline

Modelled from the spec: the Python analysis function (librosa-based
`process_audio`) ships outside this repository snapshot — only its callers
(the web app, the Terraform trigger, the setup guide) are present. The
definitions below follow the component contracts of spec §3–§4: decoder,
tempo estimator, key estimator, spectral feature extractor, mood
classifier and result assembler. Reals are modelled as rationals; the
numeric surrogates (onset envelope, chroma, centroid, MFCC) are simple
executable stand-ins for the library transforms the spec delegates, with
the structure (window truncation, sentinel on silence, zeros on degenerate
input, fixed thresholds, error isolation) taken from the spec's words. -/

/-- Energy-level labels of `MoodIndicators`. -/
inductive EnergyLevel where
  | lowEnergy | mediumEnergy | highEnergy
deriving DecidableEq, Repr

/-- Brightness labels of `MoodIndicators`. -/
inductive Brightness where
  | dark | balanced | bright
deriving DecidableEq, Repr

/-- Rhythmic-stability labels of `MoodIndicators`. -/
inductive RhythmicStability where
  | unstable | moderate | steady
deriving DecidableEq, Repr

/-- Modelled from the spec: the derived categorical mood labels (§3). -/
structure MoodIndicators where
  energy_level : EnergyLevel
  brightness : Brightness
  rhythmic_stability : RhythmicStability
deriving DecidableEq, Repr

/-- Modelled from the spec: the numeric outputs of analysis (§3). -/
structure FeatureSet where
  tempo_bpm : ℚ
  estimated_key : String
  duration_seconds : ℚ
  spectral_centroid_mean : ℚ
  rms_energy_mean : ℚ
  zero_crossing_rate_mean : ℚ
  mfcc_vector : List ℚ
  beat_regularity : ℚ
deriving DecidableEq, Repr

/-- Modelled from the spec: one result record per input file (§3). The
feature fields are present exactly on success; `error` exactly on
failure. -/
structure AnalysisResult where
  file_name : String
  features : Option FeatureSet
  mood_indicators : Option MoodIndicators
  error : Option String
  processed_at : Nat
deriving DecidableEq, Repr

/-- Analysis sample rate (model configuration constant). -/
def SAMPLE_RATE : Nat := 100

/-- Leading analysis window, seconds (spec §4.1: 60 seconds). -/
def ANALYSIS_WINDOW_SECONDS : Nat := 60

/-- Minimal byte count for a decodable stream (model header size). -/
def HEADER_BYTES : Nat := 44

/-- MFCC vector length (spec §3: configuration constant, e.g. 13). -/
def N_MFCC : Nat := 13

/-- Frame length, samples, for the framed spectral descriptors. -/
def FRAME_SIZE : Nat := 50

/-- Division that yields 0 on a zero denominator (degenerate input yields
zero-valued descriptors, spec §4.4). -/
def safeDiv (a b : ℚ) : ℚ := if b = 0 then 0 else a / b

/-- Mean of a list of rationals, 0 for the empty list. -/
def meanQ (l : List ℚ) : ℚ := safeDiv l.sum (l.length : ℚ)

/-- Population variance of a list of rationals, 0 for the empty list. -/
def varQ (l : List ℚ) : ℚ := meanQ (l.map (fun x => (x - meanQ l) ^ 2))

/-- Index of the maximal value of `f` over `cands`; ties are broken by the
earliest candidate (spec §4.3: lowest pitch-class index wins a tie). -/
def argmaxQ (f : Nat → ℚ) (cands : List Nat) : Nat :=
  match cands with
  | [] => 0
  | c :: cs => cs.foldl (fun best i => if f i > f best then i else best) c

/-- Modelled from the spec: the decoder/loader (§4.1). Fails when the
extension is unsupported or the stream is corrupt (modelled as shorter
than a minimal header); otherwise yields centred samples truncated to the
60-second analysis window, plus the full-file duration in seconds. -/
def decodeAudio (bytes : List Nat) (ext : String) :
    Except String (List ℤ × ℚ) :=
  if ¬ ALLOWED_EXTENSIONS.contains ext then
    Except.error "unsupported audio format"
  else if bytes.length < HEADER_BYTES then
    Except.error "corrupt or truncated audio stream"
  else
    let payload := bytes.drop HEADER_BYTES
    let samples := payload.map (fun b => (b : ℤ) - 128)
    Except.ok (samples.take (ANALYSIS_WINDOW_SECONDS * SAMPLE_RATE),
               safeDiv (payload.length : ℚ) (SAMPLE_RATE : ℚ))

/-- Energy-based onset-strength envelope: absolute successive differences
(spec §4.2). -/
def onsetEnvelope (samples : List ℤ) : List ℚ :=
  List.zipWith (fun a b => ((b - a).natAbs : ℚ)) samples samples.tail

/-- Autocorrelation of an envelope at one lag. -/
def autocorrAt (o : List ℚ) (lag : Nat) : ℚ :=
  (List.zipWith (fun a b => a * b) o (o.drop lag)).sum

/-- Fold a tempo estimate into the conventional 60–200 BPM band by
doubling/halving (spec §4.2); for estimates in that band the doubled or
halved candidate is exactly the one closer to the 120 BPM prior. -/
def foldTempo (fuel : Nat) (bpm : ℚ) : ℚ :=
  match fuel with
  | 0 => bpm
  | fuel + 1 =>
    if 0 < bpm ∧ bpm < 60 then foldTempo fuel (2 * bpm)
    else if bpm > 200 then foldTempo fuel (bpm / 2)
    else bpm

/-- Indices whose onset strength exceeds the envelope mean: the model's
beat positions. -/
def peakIndices (o : List ℚ) : List Nat :=
  (o.enum.filter (fun p => p.2 > meanQ o)).map (fun p => p.1)

/-- Successive differences of an ascending index list, as rationals. -/
def diffsNat (l : List Nat) : List ℚ :=
  List.zipWith (fun a b => ((b : ℤ) - (a : ℤ) : ℤ)) l l.tail |>.map (fun z => (z : ℚ))

/-- Modelled from the spec: the tempo estimator (§4.2). A silent buffer is
degenerate and yields the sentinel `(0, 0)` instead of failing; otherwise
the dominant autocorrelation lag of the onset envelope gives the BPM, and
beat regularity is the inverse of the normalized variance of inter-beat
intervals. -/
def estimateTempo (samples : List ℤ) : ℚ × ℚ :=
  if samples.all (fun s => s = 0) then (0, 0)
  else
    let o := onsetEnvelope samples
    let minLag := SAMPLE_RATE * 60 / 200
    let maxLag := SAMPLE_RATE * 60 / 60
    let lags := (List.range (maxLag - minLag + 1)).map (fun i => i + minLag)
    let bestLag := argmaxQ (autocorrAt o) lags
    let bpm := foldTempo 16 (safeDiv ((60 * SAMPLE_RATE : Nat) : ℚ) (bestLag : ℚ))
    let ivs := diffsNat (peakIndices o)
    (bpm, safeDiv 1 (1 + safeDiv (varQ ivs) ((meanQ ivs) ^ 2)))

/-- A pitch-class name followed by a sharp sign. -/
def sharpOf (n : String) : String := n ++ "#"

/-- The 12 pitch-class names in ascending order from C (spec §3: no mode
distinction). -/
def PITCH_CLASSES : List String :=
  ["C", sharpOf "C", "D", sharpOf "D", "E",
   "F", sharpOf "F", "G", sharpOf "G", "A", sharpOf "A", "B"]

/-- Major-key reference template (Krumhansl-style weights × 100). -/
def MAJOR_TEMPLATE : List ℚ :=
  [635, 223, 348, 233, 444, 413, 252, 524, 239, 366, 231, 288]

/-- Pitch-class energy profile: total magnitude bucketed by index mod 12
(model surrogate for a chroma transform). -/
def chromaProfile (samples : List ℤ) : List ℚ :=
  (List.range 12).map (fun k =>
    ((samples.enum.filter (fun p => p.1 % 12 = k)).map
      (fun p => (p.2.natAbs : ℚ))).sum)

/-- Modelled from the spec: the key estimator (§4.3). Correlate the chroma
profile against the 12 rotations of the major template and take the
best-scoring rotation, ties to the lowest pitch-class index. -/
def estimateKey (samples : List ℤ) : String :=
  let chroma := chromaProfile samples
  let score := fun r =>
    (List.zipWith (fun a b => a * b) (chroma.drop r ++ chroma.take r)
      MAJOR_TEMPLATE).sum
  PITCH_CLASSES.getD (argmaxQ score (List.range 12)) "C"

/-- Split a list into consecutive frames of the given size (a final short
frame is kept); frame size 0 yields no frames. -/
def chunkList : Nat → List ℤ → List (List ℤ)
  | _, [] => []
  | 0, _ :: _ => []
  | n + 1, x :: xs =>
    ((x :: xs).take (n + 1)) :: chunkList (n + 1) ((x :: xs).drop (n + 1))
termination_by _ l => l.length
decreasing_by simp [List.length_drop]; omega

/-- Per-frame energy: mean square amplitude (the square root is left out
of the rational model). -/
def frameRms (f : List ℤ) : ℚ := meanQ (f.map (fun s => ((s * s : ℤ) : ℚ)))

/-- Per-frame zero-crossing rate: sign changes over frame length. -/
def frameZcr (f : List ℤ) : ℚ :=
  safeDiv
    ((List.zipWith
        (fun a b => if (0 ≤ a ∧ b < 0) ∨ (a < 0 ∧ 0 ≤ b) then (1 : ℚ) else 0)
        f f.tail).sum)
    (f.length : ℚ)

/-- Per-frame spectral-centroid surrogate: magnitude-weighted mean index,
scaled to the 0–Nyquist range. -/
def frameCentroid (f : List ℤ) : ℚ :=
  let mags := f.map (fun s => (s.natAbs : ℚ))
  safeDiv ((mags.enum.map (fun p => (p.1 : ℚ) * p.2)).sum) mags.sum *
    safeDiv (SAMPLE_RATE : ℚ) (2 * (f.length : ℚ))

/-- Per-frame MFCC surrogate: mean magnitude bucketed by index mod
`N_MFCC`, a fixed-length fingerprint. -/
def frameMfcc (f : List ℤ) : List ℚ :=
  (List.range N_MFCC).map (fun j =>
    meanQ ((f.enum.filter (fun p => p.1 % N_MFCC = j)).map
      (fun p => (p.2.natAbs : ℚ))))

/-- Coefficient-wise mean of a list of vectors, at fixed length
`N_MFCC`. -/
def meanVectors (vs : List (List ℚ)) : List ℚ :=
  (List.range N_MFCC).map (fun j => meanQ (vs.map (fun v => v.getD j 0)))

/-- The spectral extractor's output fields. -/
structure SpectralFeatures where
  spectral_centroid_mean : ℚ
  rms_energy_mean : ℚ
  zero_crossing_rate_mean : ℚ
  mfcc_vector : List ℚ
deriving DecidableEq, Repr

/-- Modelled from the spec: the spectral feature extractor (§4.4). Frame
the buffer, derive each descriptor per frame, average across frames; no
failure path — degenerate input yields zero-valued descriptors. -/
def extractSpectral (samples : List ℤ) : SpectralFeatures :=
  let fs := chunkList FRAME_SIZE samples
  { spectral_centroid_mean := meanQ (fs.map frameCentroid)
    rms_energy_mean := meanQ (fs.map frameRms)
    zero_crossing_rate_mean := meanQ (fs.map frameZcr)
    mfcc_vector := meanVectors (fs.map frameMfcc) }

/-- High tempo cutoff, BPM (model threshold configuration). -/
def TEMPO_HIGH : ℚ := 120

/-- Low tempo cutoff, BPM. -/
def TEMPO_LOW : ℚ := 90

/-- High energy cutoff (mean-square amplitude units). -/
def RMS_HIGH : ℚ := 5000

/-- Low energy cutoff. -/
def RMS_LOW : ℚ := 500

/-- High brightness cutoff, Hz. -/
def CENTROID_HIGH : ℚ := 2000

/-- Low brightness cutoff, Hz. -/
def CENTROID_LOW : ℚ := 1000

/-- High rhythmic-stability cutoff. -/
def REG_HIGH : ℚ := 4 / 5

/-- Low rhythmic-stability cutoff. -/
def REG_LOW : ℚ := 2 / 5

/-- Modelled from the spec: the mood classifier (§4.5), a pure
fixed-threshold function that always produces a label triple. -/
def classifyMood (tempo rms centroid reg : ℚ) : MoodIndicators :=
  { energy_level :=
      if tempo > TEMPO_HIGH ∧ rms > RMS_HIGH then EnergyLevel.highEnergy
      else if tempo < TEMPO_LOW ∧ rms < RMS_LOW then EnergyLevel.lowEnergy
      else EnergyLevel.mediumEnergy
    brightness :=
      if centroid > CENTROID_HIGH then Brightness.bright
      else if centroid < CENTROID_LOW then Brightness.dark
      else Brightness.balanced
    rhythmic_stability :=
      if reg > REG_HIGH then RhythmicStability.steady
      else if reg < REG_LOW then RhythmicStability.unstable
      else RhythmicStability.moderate }

/-- Modelled from the spec: the result assembler (§4.6). Decode failure
yields the error-shaped record; otherwise the component outputs are
composed into the success-shaped record. The pipeline is a total function:
it always returns a result object and never throws past its interface. -/
def analyze (bytes : List Nat) (file_name : String) (now : Nat) :
    AnalysisResult :=
  match decodeAudio bytes (toLowerAscii (extname file_name)) with
  | Except.error msg =>
    { file_name := file_name, features := none, mood_indicators := none,
      error := some msg, processed_at := now }
  | Except.ok (buf, dur) =>
    let tr := estimateTempo buf
    let sp := extractSpectral buf
    { file_name := file_name
      features := some
        { tempo_bpm := tr.1
          estimated_key := estimateKey buf
          duration_seconds := dur
          spectral_centroid_mean := sp.spectral_centroid_mean
          rms_energy_mean := sp.rms_energy_mean
          zero_crossing_rate_mean := sp.zero_crossing_rate_mean
          mfcc_vector := sp.mfcc_vector
          beat_regularity := tr.2 }
      mood_indicators := some
        (classifyMood tr.1 sp.rms_energy_mean sp.spectral_centroid_mean tr.2)
      error := none
      processed_at := now }

/-! ## Theorems for the verified claims -/

/-- C1: every `AnalysisResult` the pipeline produces contains exactly one
of the full feature set and the `error` field — the `error` field is
present if and only if the feature fields and mood indicators are absent,
never both present, never both absent. -/
theorem c1_result_error_xor_features :
    ∀ (bytes : List Nat) (name : String) (t : Nat),
      (analyze bytes name t).error.isSome ↔
        ((analyze bytes name t).features.isNone ∧
          (analyze bytes name t).mood_indicators.isNone) := by
  intro b n t
  cases h : decodeAudio b (toLowerAscii (extname n)) with
  | error msg => simp [analyze, h]
  | ok p => obtain ⟨buf, dur⟩ := p; simp [analyze, h]

/-- C2: for every byte buffer, filename and timestamp, the pipeline
returns a result object that is success-shaped or error-shaped (it is a
total function, so no exception escapes its interface); in particular a
truncated garbage buffer with a `.mp3` extension yields an error-shaped
result with `error` set and no feature fields. -/
theorem c2_pipeline_total_and_corrupt_mp3 :
    (∀ (bytes : List Nat) (name : String) (t : Nat),
        ((analyze bytes name t).error = none ∧
          (analyze bytes name t).features.isSome ∧
          (analyze bytes name t).mood_indicators.isSome) ∨
        ((analyze bytes name t).error.isSome ∧
          (analyze bytes name t).features = none ∧
          (analyze bytes name t).mood_indicators = none)) ∧
    ((analyze [1, 2, 3] "clip.mp3" 0).error.isSome ∧
      (analyze [1, 2, 3] "clip.mp3" 0).features = none ∧
      (analyze [1, 2, 3] "clip.mp3" 0).mood_indicators = none) := by
  constructor
  · intro b n t
    cases h : decodeAudio b (toLowerAscii (extname n)) with
    | error msg => right; simp [analyze, h]
    | ok p => obtain ⟨buf, dur⟩ := p; left; simp [analyze, h]
  · refine ⟨?_, ?_, ?_⟩ <;> rfl

/-- C3 counterexample: the upload filter accepts `song.MP3` although its
extension `.MP3` is not one of the supported extensions — acceptance is
not literally "extension is one of the supported extensions". -/
theorem c3_extension_filter_counterexample :
    fileFilter "song.MP3" = Except.ok () ∧
      extname "song.MP3" ∉ ALLOWED_EXTENSIONS := by
  constructor
  · rfl
  · decide

/-- C3 amended: the upload filter accepts a file if and only if its
lower-cased filename extension is one of `.mp3`, `.wav`, `.flac`, `.m4a`,
`.aac`; every other file is rejected with the exact message
"File type not allowed. Use MP3, WAV, FLAC, M4A, or AAC". -/
theorem c3_extension_filter_case_insensitive :
    ∀ name : String,
      (fileFilter name = Except.ok () ↔
        toLowerAscii (extname name) ∈ ALLOWED_EXTENSIONS) ∧
      (fileFilter name = Except.ok () ∨
        fileFilter name =
          Except.error "File type not allowed. Use MP3, WAV, FLAC, M4A, or AAC") := by
  intro name
  by_cases h : toLowerAscii (extname name) ∈ ALLOWED_EXTENSIONS <;>
    simp [fileFilter, h]

/-- C4: analyzing the same byte-identical input twice yields identical
feature and mood outputs; the two results can differ only in
`processed_at`. -/
theorem c4_analysis_deterministic_up_to_timestamp :
    ∀ (bytes : List Nat) (name : String) (t₁ t₂ : Nat),
      analyze bytes name t₁ = { analyze bytes name t₂ with processed_at := t₁ } := by
  intro b n t₁ t₂
  cases h : decodeAudio b (toLowerAscii (extname n)) with
  | error msg => simp [analyze, h]
  | ok p => obtain ⟨buf, dur⟩ := p; simp [analyze, h]

/-- C5 counterexample: a stored record whose `error` field is set to the
empty string is rendered as a regular result card, not as an error card —
render-time dispatch follows JavaScript truthiness, not field presence. -/
theorem c5_error_truthiness_counterexample :
    renderCard { file_name := "a.mp3", error := some "", processed_at := none } =
        Card.resultCard "a.mp3" ∧
      (({ file_name := "a.mp3", error := some "", processed_at := none } :
          StoredResult)).error.isSome = true := by
  constructor <;> rfl

/-- C5 amended: the results page renders each record whose `error` field
is a non-empty string as an error card showing that failure message, and
each record whose `error` is absent or empty as a regular result card;
the two card shapes are distinct, so error records are distinguishable at
render time. -/
theorem c5_render_error_cards :
    ∀ rs : List StoredResult,
      renderResults rs = rs.map renderCardSpec ∧
      (∀ n m n', Card.errorCard n m ≠ Card.resultCard n') := by
  intro rs
  constructor
  · have h : renderCard = renderCardSpec := by
      funext r
      cases h : r.error with
      | none => simp [renderCard, renderCardSpec, jsTruthy, h]
      | some s =>
        by_cases hs : s = "" <;>
          simp [renderCard, renderCardSpec, jsTruthy, h, hs]
    rw [renderResults, h]
  · intro n m n' hch
    exact Card.noConfusion hch

/-- C6: the persisted document identifier is derived from the stored
filename by replacing every `/` and every `.` character with `_` — the
two sequential single-character replacements of `server.js` line 89 equal
that one-pass derivation. -/
theorem c6_docId_sanitization : ∀ s : String, docId s = docIdSpec s := by
  intro s
  have h : ∀ l : List Char,
      ((l.map (fun c => if c = '/' then '_' else c)).map
          (fun c => if c = '.' then '_' else c)) =
        l.map (fun c => if c = '/' ∨ c = '.' then '_' else c) := by
    intro l
    induction l with
    | nil => rfl
    | cons c t ih =>
      simp only [List.map_cons, ih, List.cons.injEq, and_true]
      by_cases h1 : c = '/'
      · simp [h1]
      · by_cases h2 : c = '.' <;> simp [h1, h2]
  simpa [docId, docIdSpec, replaceChar] using congrArg String.mk (h s.data)

/-- C7: the new-file-uploaded event trigger (storage object finalized) is
configured with the do-not-retry policy, so the pipeline is attempted at
most once per upload and a failed analysis is never automatically
retried. -/
theorem c7_trigger_no_retry :
    processAudioTrigger.retry_policy = "RETRY_POLICY_DO_NOT_RETRY" ∧
      maxAttempts processAudioTrigger.retry_policy = some 1 ∧
      processAudioTrigger.event_type =
        "google.cloud.storage.object.v1.finalized" :=
  ⟨rfl, rfl, rfl⟩

/-- C8: the upload size cap is exactly 50 MB — `MAX_FILE_SIZE` is
`50 * 1024 * 1024 = 52428800` bytes and multer accepts an incoming file
exactly when its size does not exceed that bound. -/
theorem c8_upload_size_cap :
    MAX_FILE_SIZE = 52428800 ∧
      ∀ n : Nat, multerAccepts n = true ↔ n ≤ 50 * 1024 * 1024 := by
  constructor
  · rfl
  · intro n
    simp [multerAccepts, MAX_FILE_SIZE]

/-- C9: the body of a successful `GET /api/results` response is the
stored records sorted most-recent-first: a permutation of the fetched
records that is pairwise non-increasing in the `processed_at` sort key,
where a record with no `processed_at` gets the empty string as its key
(and hence sorts last). -/
theorem c9_api_results_sorted_desc :
    ∀ docs : List StoredResult,
      (getResultsResponse (Except.ok docs)).2 = sortResults docs ∧
      List.Perm (sortResults docs) docs ∧
      List.Pairwise (fun a b => sortKey b ≤ sortKey a) (sortResults docs) ∧
      (∀ (name : String) (err : Option String),
        sortKey { file_name := name, error := err, processed_at := none } = "") := by
  intro docs
  refine ⟨rfl, List.perm_insertionSort _ _, ?_, fun name err => rfl⟩
  exact List.sorted_insertionSort newestFirst docs

/-- C10: when the Firestore fetch fails, `GET /api/results` still
responds with HTTP status 200 and an empty JSON array, so the results
page always receives a well-formed list. -/
theorem c10_results_fetch_failure_empty_200 :
    ∀ msg : String,
      getResultsResponse (Except.error msg) = (200, ([] : List StoredResult)) := by
  intro msg
  rfl

end AudioAnalysis
